import Mathlib

/-
Verification of the procedural placement / morphing engine of the
Christmas-tree visualization repository.

The TypeScript source is shallowly embedded:
* numeric values are modelled by the rationals `ℚ` (the source computes
  with IEEE doubles); Euclidean lengths, which the source obtains through
  `Math.sqrt` / `Math.hypot`, are expressed over `ℝ` via `Real.sqrt`;
* every call to `Math.random()` is de-randomized into an explicit input
  parameter of the embedded function;
* the pair `(Math.cos angle, Math.sin angle)` of an azimuth draw is
  modelled as an input unit direction `(dirC, dirS)`; theorems that need
  it carry the hypothesis `dirC ^ 2 + dirS ^ 2 = 1`, which holds of every
  value the source can produce.
-/

namespace Treee

/-! ## Constants (`types.ts`, `CONSTANTS`) -/

def FOLIAGE_COUNT : ℕ := 24000

def ORNAMENT_COUNT : ℕ := 600

def TREE_HEIGHT : ℚ := 18

def TREE_RADIUS : ℚ := 13/2

def SCATTER_RADIUS : ℚ := 35

/-! ## Vectors and the smoothing primitive -/

/-- A 3D point with rational coordinates (model of `THREE.Vector3`). -/
structure Vec3 where
  x : ℚ
  y : ℚ
  z : ℚ
deriving DecidableEq, Repr

/-- Squared Euclidean distance between two points. -/
def vdistSq (a b : Vec3) : ℚ :=
  (a.x - b.x) ^ 2 + (a.y - b.y) ^ 2 + (a.z - b.z) ^ 2

/-- Euclidean distance (`THREE.Vector3.distanceTo`), valued in `ℝ`. -/
noncomputable def rdist (a b : Vec3) : ℝ :=
  Real.sqrt ((vdistSq a b : ℚ) : ℝ)

/-- Distance of a point from the vertical tree axis (the y-axis). -/
noncomputable def distFromAxis (v : Vec3) : ℝ :=
  Real.sqrt ((v.x : ℝ) ^ 2 + (v.z : ℝ) ^ 2)

/-- `THREE.MathUtils.lerp x y t = x + (y - x) * t`, the exponential
smoothing step used by every per-frame animation update. -/
def lerp (x y t : ℚ) : ℚ := x + (y - x) * t

/-- Componentwise `lerp` (`THREE.Vector3.lerp`). -/
def vlerp (p target : Vec3) (t : ℚ) : Vec3 :=
  ⟨lerp p.x target.x t, lerp p.y target.y t, lerp p.z target.z t⟩

/-- Cone radius at height `y`: `TREE_RADIUS * (1 - normalizedHeight)`,
with `normalizedHeight = (y + TREE_HEIGHT/2) / TREE_HEIGHT`.  This is the
formula repeated in `Foliage`, `Ornaments.createItem` and
`App.calculateTreePos`. -/
def coneRadius (y : ℚ) : ℚ :=
  TREE_RADIUS * (1 - (y + TREE_HEIGHT / 2) / TREE_HEIGHT)

/-! ## Layout generators -/

/-- Tree position of one foliage particle (`Foliage.tsx`, the body of the
generation loop).  `randY` models `Math.random()` of the height draw,
`randR` models `Math.sqrt(Math.random())` inside the surface bias, and
`(dirC, dirS)` models `(cos angle, sin angle)` for the golden-angle
azimuth `angle = i * 2.39996 + Math.random() * 0.1`. -/
def foliageTreePos (dirC dirS randY randR : ℚ) : Vec3 :=
  let y := randY * TREE_HEIGHT - TREE_HEIGHT / 2
  let normalizedY := (y + TREE_HEIGHT / 2) / TREE_HEIGHT
  let maxRadiusAtY := TREE_RADIUS * (1 - normalizedY)
  let rBias := 4/10 + 6/10 * randR
  let radius := maxRadiusAtY * rBias
  ⟨dirC * radius, y, dirS * radius⟩

/-- Tree position of an uploaded photo (`App.tsx`, `calculateTreePos`).
The source takes an `index` argument it does not use; `randY` models the
height draw and `(dirC, dirS)` the azimuth `theta`. -/
def calculateTreePos (_index : ℕ) (dirC dirS randY : ℚ) : Vec3 :=
  let h := TREE_HEIGHT
  let y := randY * (h - 4) - (h / 2 - 2)
  let normalizedY := (y + h / 2) / h
  let rBase := TREE_RADIUS * (1 - normalizedY)
  let r := rBase * (125/100)
  ⟨dirC * r, y, dirS * r⟩

/-! ## Ornament data model (`types.ts`, `Scene.tsx`) -/

/-- The two-valued global display mode (`types.ts`, `enum TreeState`). -/
inductive TreeState where
  | SCATTERED
  | TREE_SHAPE
deriving DecidableEq, Repr

/-- The discrete ornament categories (`types.ts`, `OrnamentData.type`). -/
inductive OrnamentType where
  | box
  | sphere
  | star
  | icicle
  | candyCane
  | bell
  | snowflake
deriving DecidableEq, Repr

/-- The color palette (`types.ts`, `COLORS`), plus the plain white used
for candy canes (`new THREE.Color('#FFFFFF')`).  The source compares
colors by object identity, which this enumeration models. -/
inductive TreeColor where
  | EMERALD_DEEP
  | EMERALD_LIGHT
  | GOLD_METALLIC
  | GOLD_ROSE
  | WHITE_WARM
  | RED_RUBY
  | ICE_BLUE
  | WHITE
deriving DecidableEq, Repr

/-- One ornament instance (`types.ts`, `OrnamentData`).  The source keeps
the collision radius of an accepted item only in the `placedItems` list;
here it is carried on the record as well, exactly as computed at
creation. -/
structure OrnamentData where
  id : ℕ
  type : OrnamentType
  scatterPos : Vec3
  treePos : Vec3
  color : TreeColor
  secondaryColor : Option TreeColor
  weight : ℚ
  scale : ℚ
  rotationSpeed : ℚ
  collisionRadius : ℚ
deriving DecidableEq, Repr

/-- An entry of the `placedItems` collision list (`Scene.tsx` line 313):
the accepted tree position together with the collision radius recorded at
acceptance time. -/
structure Placed where
  pos : Vec3
  radius : ℚ
deriving DecidableEq, Repr

/-- Two placements are separated when the Euclidean distance of their
tree positions is at least `0.85 * (r1 + r2)`, the radii being those
recorded at acceptance time. -/
def separated (a b : Placed) : Prop :=
  (((a.radius + b.radius) * (85/100) : ℚ) : ℝ) ≤ rdist a.pos b.pos

/-- The `Math.random()` draws consumed by one attempt of `createItem`
(`Scene.tsx` lines 331-456), de-randomized into named inputs.
`(dirC, dirS)` stands for `(cos angle, sin angle)` of the azimuth draw;
`bellScaleRand` is the fresh draw of the final bell property block. -/
structure AttemptRand where
  typeRand : ℚ
  scaleRand : ℚ
  colorRand : ℚ
  bellRand : ℚ
  bellScaleRand : ℚ
  yRand : ℚ
  dirC : ℚ
  dirS : ℚ
  biasRand : ℚ
  scatX : ℚ
  scatY : ℚ
  scatZ : ℚ
  rotRand : ℚ
deriving DecidableEq, Repr

/-- The candidate ornament built by one attempt of `createItem`
(`Scene.tsx` lines 334-452), before the collision check.  `overrideY` is
the optional fixed height used by the bottom filler pass. -/
def ornamentCandidate (id : ℕ) (overrideY : Option ℚ) (a : AttemptRand) :
    OrnamentData :=
  let type0 : OrnamentType :=
    if a.typeRand < 30/100 then .sphere
    else if a.typeRand < 50/100 then .box
    else if a.typeRand < 65/100 then .icicle
    else if a.typeRand < 80/100 then .candyCane
    else .snowflake
  let type1 : OrnamentType := if overrideY.isSome then .bell else type0
  let props : ℚ × ℚ × TreeColor × Option TreeColor × ℚ × OrnamentType :=
    match type1 with
    | .box =>
        let scale := a.scaleRand * (4/10) + 5/10
        let cs : TreeColor × Option TreeColor :=
          if a.colorRand < 4/10 then (.RED_RUBY, some .GOLD_METALLIC)
          else if a.colorRand < 7/10 then (.EMERALD_DEEP, some .GOLD_METALLIC)
          else (.GOLD_METALLIC, some .RED_RUBY)
        (2/100, scale, cs.1, cs.2, scale * (7/10), .box)
    | .sphere =>
        let scale := a.scaleRand * (4/10) + 3/10
        let color : TreeColor :=
          if a.colorRand < 4/10 then .GOLD_METALLIC
          else if a.colorRand < 7/10 then .GOLD_ROSE
          else if a.colorRand < 9/10 then .WHITE_WARM
          else .RED_RUBY
        let t2 : OrnamentType :=
          if color = .GOLD_METALLIC ∧ a.bellRand < 4/10 then .bell else .sphere
        (5/100, scale, color, none, scale, t2)
    | .icicle =>
        (4/100, a.scaleRand * (5/10) + 6/10, .ICE_BLUE, none, 2/10, .icicle)
    | .candyCane =>
        (4/100, a.scaleRand * (4/10) + 6/10, .WHITE, none, 3/10, .candyCane)
    | .snowflake =>
        let scale := a.scaleRand * (4/10) + 5/10
        (3/100, scale, .ICE_BLUE, none, scale * (6/10), .snowflake)
    | t => (4/100, 1, .GOLD_METALLIC, none, 5/10, t)
  let weight := props.1
  let scale := props.2.1
  let color := props.2.2.1
  let secondaryColor := props.2.2.2.1
  let collisionRadius := props.2.2.2.2.1
  let type2 := props.2.2.2.2.2
  let bellProps : ℚ × ℚ × ℚ × TreeColor :=
    if type2 = .bell then
      let scale := a.bellScaleRand * (4/10) + 5/10
      (3/100, scale, scale * (6/10), .GOLD_METALLIC)
    else (weight, scale, collisionRadius, color)
  let weight := bellProps.1
  let scale := bellProps.2.1
  let collisionRadius := bellProps.2.2.1
  let color := bellProps.2.2.2
  let y : ℚ :=
    match overrideY with
    | some v => v
    | none => a.yRand * TREE_HEIGHT - TREE_HEIGHT / 2
  let normalizedY := (y + TREE_HEIGHT / 2) / TREE_HEIGHT
  let coneRadiusAtY := TREE_RADIUS * (1 - normalizedY)
  let rBias := 9/10 + a.biasRand * (25/100)
  let r := coneRadiusAtY * rBias
  let treePos : Vec3 := ⟨a.dirC * r, y, a.dirS * r⟩
  let scatterPos : Vec3 :=
    ⟨(a.scatX - 1/2) * SCATTER_RADIUS * (15/10),
     (a.scatY - 1/2) * SCATTER_RADIUS * (15/10),
     (a.scatZ - 1/2) * SCATTER_RADIUS * (15/10)⟩
  { id := id, type := type2, scatterPos := scatterPos, treePos := treePos,
    color := color, secondaryColor := secondaryColor, weight := weight,
    scale := scale, rotationSpeed := a.rotRand * 2,
    collisionRadius := collisionRadius }

/-- One comparison of the collision loop (`Scene.tsx` lines 316-321).  The
source tests `dist < (radius + other.radius) * 0.85` with
`dist = sqrt(distSq)`; over the reals this is equivalent to the decidable
rational test `0 < t ∧ distSq < t ^ 2` with `t` the threshold (see
`collidesWith_iff_rdist`). -/
def collidesWith (pos : Vec3) (radius : ℚ) (other : Placed) : Bool :=
  decide (0 < (radius + other.radius) * (85/100) ∧
    vdistSq pos other.pos < ((radius + other.radius) * (85/100)) ^ 2)

/-- `isColliding` (`Scene.tsx` lines 315-324): true when the candidate
overlaps any already-placed item. -/
def isColliding (placed : List Placed) (pos : Vec3) (radius : ℚ) : Bool :=
  placed.any (fun other => collidesWith pos radius other)

/-- The retry loop of `createItem` (`Scene.tsx` lines 331-456): `i` is the
current attempt index (each attempt consumes the draws `rands i`) and
`fuel` the remaining attempts out of `maxAttempts = 50`.  On acceptance
the candidate is pushed onto the placed list and returned; on exhaustion
the result is `none` and the placed list is unchanged. -/
def createItemGo (id : ℕ) (overrideY : Option ℚ) (rands : ℕ → AttemptRand)
    (placed : List Placed) : ℕ → ℕ → Option OrnamentData × List Placed
  | _, 0 => (none, placed)
  | i, fuel + 1 =>
    let c := ornamentCandidate id overrideY (rands i)
    if isColliding placed c.treePos c.collisionRadius then
      createItemGo id overrideY rands placed (i + 1) fuel
    else
      (some c, ⟨c.treePos, c.collisionRadius⟩ :: placed)

/-- `createItem` (`Scene.tsx` lines 327-459) with `maxAttempts = 50`. -/
def createItem (id : ℕ) (overrideY : Option ℚ) (rands : ℕ → AttemptRand)
    (placed : List Placed) : Option OrnamentData × List Placed :=
  createItemGo id overrideY rands placed 0 50

/-- One bounded generation loop of `Ornaments` (`Scene.tsx` lines 468-479
and 485-496): run while the iteration budget `fuel` lasts and fewer than
`target` items were placed; `ov i` is the `overrideY` of iteration `i`,
`post i` the post-acceptance adjustment (identity for the main pass, the
bell/scale/color overwrite for the filler pass), `idc` the running
`idCounter`.  Returns the accepted items, the final placed list and the
final `idCounter`. -/
def placeLoop (ov : ℕ → Option ℚ) (post : ℕ → OrnamentData → OrnamentData)
    (rands : ℕ → ℕ → AttemptRand) (target : ℕ) :
    ℕ → ℕ → ℕ → ℕ → List Placed → List OrnamentData × List Placed × ℕ
  | 0, _, idc, _, placed => ([], placed, idc)
  | fuel + 1, i, idc, count, placed =>
    if count < target then
      match createItem idc (ov i) (rands i) placed with
      | (some item, placed') =>
          let rest :=
            placeLoop ov post rands target fuel (i + 1) (idc + 1) (count + 1) placed'
          (post i item :: rest.1, rest.2)
      | (none, placed') =>
          placeLoop ov post rands target fuel (i + 1) (idc + 1) count placed'
    else ([], placed, idc)

/-- The full ornament generation (`Scene.tsx` lines 461-498): the main
pass (budget `600 * 1.5 = 900` iterations, target 600) followed by the
bottom filler pass (budget `120 * 1.5 = 180`, target 120) whose items are
forced to large gold or rose bells at height `fillY i * 4 - 9`.
`mainRands i` / `fillRands i` are the attempt draws of iteration `i`, and
`fillColor i` the filler color coin.  Returns all accepted items and the
final `placedItems` list. -/
def generateOrnaments (mainRands fillRands : ℕ → ℕ → AttemptRand)
    (fillY fillColor : ℕ → ℚ) : List OrnamentData × List Placed :=
  let main :=
    placeLoop (fun _ => none) (fun _ d => d) mainRands ORNAMENT_COUNT
      (ORNAMENT_COUNT * 3 / 2) 0 0 0 []
  let filler :=
    placeLoop (fun i => some (fillY i * 4 - TREE_HEIGHT / 2))
      (fun i d =>
        { d with type := .bell, scale := 7/10,
                 color := if fillColor i > 1/2 then .GOLD_METALLIC else .GOLD_ROSE })
      fillRands 120 180 0 main.2.2 0 main.2.1
  (main.1 ++ filler.1, filler.2.1)

/-! ## Gesture-to-state mapper (`GestureController.tsx`)

Hand landmarks live in normalized image space; the source measures them
with `Math.hypot`, so this module works over `ℝ` (with classical
decidability for the comparisons the source performs on those
measurements). -/

section GestureModule

open Classical

/-- One hand landmark (normalized image coordinates). -/
structure Landmark where
  x : ℝ
  y : ℝ
  z : ℝ

/-- A detected hand: its 21 landmarks, indexed as in MediaPipe
(0 = wrist, 4 = thumb tip, 8 = index tip, 12 = middle tip, 16 = ring tip,
20 = pinky tip). -/
def Hand : Type := ℕ → Landmark

/-- Two-argument `Math.hypot`. -/
noncomputable def hypot2 (dx dy : ℝ) : ℝ := Real.sqrt (dx ^ 2 + dy ^ 2)

/-- Three-argument `Math.hypot`. -/
noncomputable def hypot3 (dx dy dz : ℝ) : ℝ :=
  Real.sqrt (dx ^ 2 + dy ^ 2 + dz ^ 2)

/-- Average fingertip-to-wrist distance (`processLandmarks` lines
120-125): the 2D distances of index, middle, ring and pinky tips to the
wrist, averaged. -/
noncomputable def avgFingerDist (hand : Hand) : ℝ :=
  let wrist := hand 0
  let dIndex := hypot2 ((hand 8).x - wrist.x) ((hand 8).y - wrist.y)
  let dMid := hypot2 ((hand 12).x - wrist.x) ((hand 12).y - wrist.y)
  let dRing := hypot2 ((hand 16).x - wrist.x) ((hand 16).y - wrist.y)
  let dPinky := hypot2 ((hand 20).x - wrist.x) ((hand 20).y - wrist.y)
  (dIndex + dMid + dRing + dPinky) / 4

/-- Thumb-tip to index-tip distance (`processLandmarks` line 114). -/
noncomputable def pinchDist (hand : Hand) : ℝ :=
  hypot3 ((hand 4).x - (hand 8).x) ((hand 4).y - (hand 8).y)
    ((hand 4).z - (hand 8).z)

/-- A hand classified as a fist: `avgDist < 0.25`. -/
def fistHand (hand : Hand) : Prop := avgFingerDist hand < 25/100

/-- A hand classified as open: `avgDist > 0.4`. -/
def openHand (hand : Hand) : Prop := avgFingerDist hand > 4/10

/-- The accumulator of the per-hand loop of `processLandmarks`:
the `isFist` / `isOpen` / `isPinching` flags and the running `totalX`. -/
structure GestureFlags where
  isFist : Bool
  isOpenFlag : Bool
  isPinching : Bool
  totalX : ℝ

/-- The body of the `for (const hand of landmarks)` loop
(`processLandmarks` lines 102-132). -/
noncomputable def scanHand (acc : GestureFlags) (hand : Hand) : GestureFlags :=
  let acc1 := { acc with totalX := acc.totalX + (hand 0).x }
  let acc2 :=
    if pinchDist hand < 5/100 then { acc1 with isPinching := true } else acc1
  if avgFingerDist hand < 25/100 then { acc2 with isFist := true }
  else if avgFingerDist hand > 4/10 then { acc2 with isOpenFlag := true }
  else acc2

/-- The smoothing target of `updateScale`: 10.0 while pinching, 1.0
otherwise. -/
noncomputable def targetScale (isPinching : Bool) : ℝ := if isPinching then 10 else 1

/-- The asymmetric smoothing rate of `updateScale`: slow engage 0.1,
fast release 0.4. -/
noncomputable def lerpSpeed (isPinching : Bool) : ℝ := if isPinching then 1/10 else 4/10

/-- `updateScale` (`GestureController.tsx` lines 73-88): one exponential
smoothing step of the pinch scale, snapping to 1.0 when not pinching and
within 0.05 of 1.0. -/
noncomputable def updateScale (isPinching : Bool) (s : ℝ) : ℝ :=
  let s' := s + (targetScale isPinching - s) * lerpSpeed isPinching
  if isPinching = false ∧ |s' - 1| < 5/100 then 1 else s'

/-- The state written by the gesture controller: the Mode, the published
photo scale (`pinchSmoother`, initialized to 1.0) and the rotation
bias. -/
structure GestureState where
  mode : TreeState
  scale : ℝ
  rotationMod : ℝ

/-- `processLandmarks` (`GestureController.tsx` lines 90-148): scan the
hands for fist / open / pinch, update the Mode (open wins over fist,
neither leaves it unchanged), smooth the scale, and set the rotation bias
from the average wrist x.  An empty landmark list resets the rotation
bias and releases the scale. -/
noncomputable def processLandmarks (hands : List Hand) (g : GestureState) :
    GestureState :=
  match hands with
  | [] => { g with rotationMod := 0, scale := updateScale false g.scale }
  | _ :: _ =>
    let flags := hands.foldl scanHand ⟨false, false, false, 0⟩
    let mode' :=
      if flags.isOpenFlag then TreeState.SCATTERED
      else if flags.isFist then TreeState.TREE_SHAPE
      else g.mode
    let avgX := flags.totalX / (hands.length : ℝ)
    { mode := mode', scale := updateScale flags.isPinching g.scale,
      rotationMod := (1/2 - avgX) * 5 }

/-- The no-detection branch of `predict` (`GestureController.tsx` lines
64-68): reset the rotation bias and release the scale. -/
noncomputable def noHandsStep (g : GestureState) : GestureState :=
  { g with rotationMod := 0, scale := updateScale false g.scale }

end GestureModule

/-! ## Morph / animation driver (`Scene.tsx` `updateMesh`,
`PhotoFrames.tsx` `FrameMesh`, `Foliage.tsx` morph factor) -/

/-- One per-frame position update of an ornament instance (`updateMesh`,
`Scene.tsx` lines 566-574): lerp the live position toward the Mode's
target with rate `weight` (tree) or `weight * 2.5` (scattered). -/
def ornamentFrameStep (isTree : Bool) (item : OrnamentData) (cur : Vec3) :
    Vec3 :=
  let target := if isTree then item.treePos else item.scatterPos
  let speed := if isTree then item.weight else item.weight * (25/10)
  vlerp cur target speed

/-- An uploaded photo (`types.ts`, `PhotoItem`); the decoded image URL is
irrelevant to the core and omitted. -/
structure PhotoItem where
  id : ℕ
  scatterPos : Vec3
  treePos : Vec3
  rotationSpeed : ℚ
  aspect : ℚ
deriving DecidableEq, Repr

/-- One per-frame position update of a photo frame (`FrameMesh`,
`PhotoFrames.tsx` lines 31-65).  When zooming (`globalScale > 2.0`) the
frame chases a screen-pinned target computed each frame from the inverse
of the parent's world transform — that target depends only on the parent
transform, so it enters here as the opaque per-frame input `zoomTarget`.
Otherwise it lerps toward the Mode's target with rate 0.08 (tree) or
0.02 (scattered). -/
def photoFrameStep (isTree : Bool) (zooming : Bool) (zoomTarget : Vec3)
    (photo : PhotoItem) (cur : Vec3) : Vec3 :=
  if zooming then vlerp cur zoomTarget (2/10)
  else
    let target := if isTree then photo.treePos else photo.scatterPos
    vlerp cur target (if isTree then 8/100 else 2/100)

/-- The whole per-entity state of the scene: the immutable creation-time
records next to the live per-frame data they drive. -/
structure SceneState where
  ornaments : List OrnamentData
  ornCur : List Vec3
  photos : List PhotoItem
  photoCur : List Vec3
  foliageTree : List Vec3
  foliageScatter : List Vec3
  morphFactor : ℚ

/-- The external inputs of one rendered frame: the Mode, the current
global photo scale, and the screen-pin targets (one per photo, computed
from the parent world matrix). -/
structure FrameInput where
  isTree : Bool
  globalScale : ℚ
  zoomTarget : ℕ → Vec3

/-- One rendered frame of the animation driver: `updateMesh` over every
ornament, `FrameMesh.useFrame` over every photo (`isZooming` is
`globalScale > 2.0`), and the foliage morph-factor lerp with rate 0.03
(`Foliage.tsx` lines 173-179).  Only the live data (`ornCur`, `photoCur`,
`morphFactor`) is recomputed; the creation-time records are carried
through untouched, as in the source. -/
def frameStep (inp : FrameInput) (st : SceneState) : SceneState :=
  { ornaments := st.ornaments,
    ornCur :=
      List.zipWith (fun item cur => ornamentFrameStep inp.isTree item cur)
        st.ornaments st.ornCur,
    photos := st.photos,
    photoCur :=
      (List.zipWith
        (fun (pair : PhotoItem × ℕ) cur =>
          photoFrameStep inp.isTree (decide (inp.globalScale > 2))
            (inp.zoomTarget pair.2) pair.1 cur)
        (st.photos.zip (List.range st.photos.length)) st.photoCur),
    foliageTree := st.foliageTree,
    foliageScatter := st.foliageScatter,
    morphFactor := lerp st.morphFactor (if inp.isTree then 1 else 0) (3/100) }

/-! ## General lemmas -/

lemma vdistSq_nonneg (a b : Vec3) : 0 ≤ vdistSq a b := by
  unfold vdistSq; positivity

lemma rdist_nonneg (a b : Vec3) : 0 ≤ rdist a b := Real.sqrt_nonneg _

/-- The decidable rational collision test agrees with the real
`dist < (r1 + r2) * 0.85` comparison of the source. -/
lemma collidesWith_iff_rdist (pos : Vec3) (radius : ℚ) (other : Placed) :
    collidesWith pos radius other = true ↔
      rdist pos other.pos < (((radius + other.radius) * (85/100) : ℚ) : ℝ) := by
  unfold collidesWith rdist
  rw [decide_eq_true_eq]
  constructor
  · rintro ⟨ht, hsq⟩
    have ht' : (0:ℝ) < ((radius + other.radius) * (85/100) : ℚ) := by
      exact_mod_cast ht
    have hsq' : ((vdistSq pos other.pos : ℚ) : ℝ) <
        (((radius + other.radius) * (85/100) : ℚ) : ℝ) ^ 2 := by
      exact_mod_cast hsq
    calc Real.sqrt ((vdistSq pos other.pos : ℚ) : ℝ)
        < Real.sqrt ((((radius + other.radius) * (85/100) : ℚ) : ℝ) ^ 2) := by
          apply Real.sqrt_lt_sqrt _ hsq'
          exact_mod_cast vdistSq_nonneg pos other.pos
      _ = (((radius + other.radius) * (85/100) : ℚ) : ℝ) := by
          rw [Real.sqrt_sq ht'.le]
  · intro h
    have h0 : (0:ℝ) ≤ Real.sqrt ((vdistSq pos other.pos : ℚ) : ℝ) :=
      Real.sqrt_nonneg _
    have ht' : (0:ℝ) < (((radius + other.radius) * (85/100) : ℚ) : ℝ) :=
      lt_of_le_of_lt h0 h
    refine ⟨by exact_mod_cast ht', ?_⟩
    have hd : ((vdistSq pos other.pos : ℚ) : ℝ) <
        (((radius + other.radius) * (85/100) : ℚ) : ℝ) ^ 2 := by
      have := Real.sq_sqrt (show (0:ℝ) ≤ ((vdistSq pos other.pos : ℚ) : ℝ) by
        exact_mod_cast vdistSq_nonneg pos other.pos)
      nlinarith [Real.sqrt_nonneg ((vdistSq pos other.pos : ℚ) : ℝ)]
    exact_mod_cast hd

/-- A failed collision test yields real separation. -/
lemma not_collidesWith_separated (pos : Vec3) (radius : ℚ) (other : Placed)
    (h : collidesWith pos radius other = false) :
    (((radius + other.radius) * (85/100) : ℚ) : ℝ) ≤ rdist pos other.pos := by
  by_contra hlt
  push_neg at hlt
  rw [← collidesWith_iff_rdist] at hlt
  rw [h] at hlt
  exact Bool.false_ne_true hlt

lemma isColliding_eq_false_iff (placed : List Placed) (pos : Vec3) (radius : ℚ) :
    isColliding placed pos radius = false ↔
      ∀ other ∈ placed, collidesWith pos radius other = false := by
  unfold isColliding
  simp [List.any_eq_false]

/-! ## C2: invariant of the collision-aware placer -/

lemma createItemGo_pairwise (id : ℕ) (o : Option ℚ) (rands : ℕ → AttemptRand)
    (placed : List Placed) (hp : List.Pairwise separated placed) :
    ∀ fuel i, List.Pairwise separated
      (createItemGo id o rands placed i fuel).2 := by
  intro fuel
  induction fuel with
  | zero => intro i; exact hp
  | succ n ih =>
    intro i
    rw [createItemGo]
    by_cases hc : isColliding placed
        (ornamentCandidate id o (rands i)).treePos
        (ornamentCandidate id o (rands i)).collisionRadius = true
    · simp only [hc, if_true]
      exact ih (i + 1)
    · have hc' := eq_false_of_ne_true hc
      simp only [hc', Bool.false_eq_true, if_false]
      refine List.Pairwise.cons ?_ hp
      intro b hb
      have hall := (isColliding_eq_false_iff placed _ _).mp hc' b hb
      exact not_collidesWith_separated _ _ _ hall

lemma createItem_pairwise (id : ℕ) (o : Option ℚ) (rands : ℕ → AttemptRand)
    (placed : List Placed) (hp : List.Pairwise separated placed) :
    List.Pairwise separated (createItem id o rands placed).2 :=
  createItemGo_pairwise id o rands placed hp 50 0

lemma placeLoop_pairwise (ov : ℕ → Option ℚ)
    (post : ℕ → OrnamentData → OrnamentData) (rands : ℕ → ℕ → AttemptRand)
    (target : ℕ) :
    ∀ fuel i idc count (placed : List Placed),
      List.Pairwise separated placed →
      List.Pairwise separated
        (placeLoop ov post rands target fuel i idc count placed).2.1 := by
  intro fuel
  induction fuel with
  | zero => intro i idc count placed hp; exact hp
  | succ n ih =>
    intro i idc count placed hp
    rw [placeLoop]
    by_cases hcnt : count < target
    · simp only [hcnt, if_true]
      rcases hcreate : createItem idc (ov i) (rands i) placed with ⟨res, placed'⟩
      have hp' : List.Pairwise separated placed' := by
        have := createItem_pairwise idc (ov i) (rands i) placed hp
        rw [hcreate] at this
        exact this
      cases res with
      | some item => simpa using ih (i + 1) (idc + 1) (count + 1) placed' hp'
      | none => simpa using ih (i + 1) (idc + 1) count placed' hp'
    · simp only [hcnt, if_false]
      exact hp

/-- C2: every pair of distinct ornament placements accepted by the
collision-aware placer, the bottom filler pass included, has tree
positions at Euclidean distance at least `0.85 * (r1 + r2)`, where the
radii are those recorded in `placedItems` at acceptance time. -/
theorem ornament_placements_separated (mainRands fillRands : ℕ → ℕ → AttemptRand)
    (fillY fillColor : ℕ → ℚ) :
    List.Pairwise separated
      (generateOrnaments mainRands fillRands fillY fillColor).2 := by
  unfold generateOrnaments
  apply placeLoop_pairwise
  apply placeLoop_pairwise
  exact List.Pairwise.nil

/-! ## C8: idempotence at the fixed point -/

/-- C8: the exponential smoothing step `p := p + (target - p) * rate` is
idempotent at its fixed point: for every target, every rate and a
position already equal to the target, any number of applications leaves
it unchanged — both for the scalar lerp and for the componentwise
`Vector3` lerp used by `updateMesh`. -/
theorem lerp_fixed_point_idempotent :
    (∀ (target rate : ℚ) (n : ℕ),
      (fun p => lerp p target rate)^[n] target = target) ∧
    (∀ (target : Vec3) (rate : ℚ) (n : ℕ),
      (fun p => vlerp p target rate)^[n] target = target) := by
  constructor
  · intro target rate n
    apply Function.iterate_fixed
    simp [lerp]
  · intro target rate n
    apply Function.iterate_fixed
    simp [vlerp, lerp]

/-! ## C9: creation-time records are never written by frame updates -/

/-- C9: after any number of frames, under any sequence of Modes and
control inputs, every entity's creation-time records — `scatterPos` and
`treePos` of ornaments and photos, and the foliage tree/scatter arrays —
are exactly their creation-time values; the driver recomputes only the
live positions and the morph factor. -/
theorem creation_records_immutable (inputs : List FrameInput) (st : SceneState) :
    (inputs.foldl (fun s i => frameStep i s) st).ornaments = st.ornaments ∧
    (inputs.foldl (fun s i => frameStep i s) st).photos = st.photos ∧
    (inputs.foldl (fun s i => frameStep i s) st).foliageTree = st.foliageTree ∧
    (inputs.foldl (fun s i => frameStep i s) st).foliageScatter =
      st.foliageScatter := by
  induction inputs generalizing st with
  | nil => exact ⟨rfl, rfl, rfl, rfl⟩
  | cons head tail ih =>
    simp only [List.foldl_cons]
    exact ih (frameStep head st)

/-! ## C3: createItem retry budget and silent failure -/

lemma createItemGo_all_colliding (id : ℕ) (o : Option ℚ)
    (rands : ℕ → AttemptRand) (placed : List Placed) :
    ∀ fuel i,
      (∀ j, i ≤ j → j < i + fuel →
        isColliding placed (ornamentCandidate id o (rands j)).treePos
          (ornamentCandidate id o (rands j)).collisionRadius = true) →
      createItemGo id o rands placed i fuel = (none, placed) := by
  intro fuel
  induction fuel with
  | zero => intro i _; rfl
  | succ n ih =>
    intro i hall
    rw [createItemGo]
    have hi : isColliding placed (ornamentCandidate id o (rands i)).treePos
        (ornamentCandidate id o (rands i)).collisionRadius = true :=
      hall i le_rfl (by omega)
    simp only [hi, if_true]
    exact ih (i + 1) (fun j h1 h2 => hall j (by omega) (by omega))

lemma createItemGo_congr (id : ℕ) (o : Option ℚ)
    (rands rands' : ℕ → AttemptRand) (placed : List Placed) :
    ∀ fuel i,
      (∀ j, i ≤ j → j < i + fuel → rands j = rands' j) →
      createItemGo id o rands placed i fuel =
        createItemGo id o rands' placed i fuel := by
  intro fuel
  induction fuel with
  | zero => intro i _; rfl
  | succ n ih =>
    intro i hag
    rw [createItemGo, createItemGo]
    rw [hag i le_rfl (by omega)]
    by_cases hc : isColliding placed
        (ornamentCandidate id o (rands' i)).treePos
        (ornamentCandidate id o (rands' i)).collisionRadius = true
    · simp only [hc, if_true]
      exact ih (i + 1) (fun j h1 h2 => hag j (by omega) (by omega))
    · have hc' := eq_false_of_ne_true hc
      simp only [hc', Bool.false_eq_true, if_false]

/-- C3: `createItem` samples at most 50 candidates — its result depends
only on the first 50 attempt draws — and when every one of those
candidates collides with an already-placed item it returns `none` with
the placed list unchanged (the item is silently dropped; the embedding is
a total function, so no exception can propagate). -/
theorem createItem_bounded_retries (id : ℕ) (o : Option ℚ)
    (rands : ℕ → AttemptRand) (placed : List Placed) :
    ((∀ j, j < 50 →
        isColliding placed (ornamentCandidate id o (rands j)).treePos
          (ornamentCandidate id o (rands j)).collisionRadius = true) →
      createItem id o rands placed = (none, placed)) ∧
    (∀ rands' : ℕ → AttemptRand, (∀ j, j < 50 → rands j = rands' j) →
      createItem id o rands placed = createItem id o rands' placed) := by
  constructor
  · intro hall
    exact createItemGo_all_colliding id o rands placed 50 0
      (fun j _ h2 => hall j (by omega))
  · intro rands' hag
    exact createItemGo_congr id o rands rands' placed 50 0
      (fun j _ h2 => hag j (by omega))

/-- Witness for C3 at a concrete input: a single huge placed item makes
every candidate of a constant draw stream collide, and `createItem`
returns `none` leaving the placed list untouched. -/
theorem createItem_bounded_retries_witness :
    createItem 0 none
      (fun _ => ⟨0, 0, 0, 0, 0, 0, 1, 0, 0, 0, 0, 0, 0⟩)
      [⟨⟨0, 0, 0⟩, 100⟩] = (none, [⟨⟨0, 0, 0⟩, 100⟩]) := by
  apply (createItem_bounded_retries 0 none
    (fun _ => ⟨0, 0, 0, 0, 0, 0, 1, 0, 0, 0, 0, 0, 0⟩) [⟨⟨0, 0, 0⟩, 100⟩]).1
  intro j _
  norm_num [isColliding, collidesWith, ornamentCandidate, vdistSq,
    TREE_HEIGHT, TREE_RADIUS, SCATTER_RADIUS]

/-! ## C1: surface-hugging bounds of the three layout generators -/

/-- A position built from a unit azimuth direction and a nonnegative
placement radius sits at exactly that radius from the tree axis. -/
lemma distFromAxis_unit (c s r y : ℚ) (hu : c ^ 2 + s ^ 2 = 1) (hr : 0 ≤ r) :
    distFromAxis ⟨c * r, y, s * r⟩ = (r : ℝ) := by
  show Real.sqrt (((c * r : ℚ) : ℝ) ^ 2 + ((s * r : ℚ) : ℝ) ^ 2) = (r : ℝ)
  have hu' : (c : ℝ) ^ 2 + (s : ℝ) ^ 2 = 1 := by exact_mod_cast hu
  have hsum : ((c * r : ℚ) : ℝ) ^ 2 + ((s * r : ℚ) : ℝ) ^ 2 = (r : ℝ) ^ 2 := by
    push_cast
    linear_combination ((r : ℝ)) ^ 2 * hu'
  rw [hsum, Real.sqrt_sq (by exact_mod_cast hr)]

/-- The tree position computed by an attempt of `createItem`, written
through `coneRadius`. -/
lemma ornamentCandidate_treePos (id : ℕ) (o : Option ℚ) (a : AttemptRand) :
    (ornamentCandidate id o a).treePos =
      (match o with
        | some v =>
            (⟨a.dirC * (coneRadius v * (9/10 + a.biasRand * (25/100))), v,
              a.dirS * (coneRadius v * (9/10 + a.biasRand * (25/100)))⟩ : Vec3)
        | none =>
            let y := a.yRand * TREE_HEIGHT - TREE_HEIGHT / 2
            (⟨a.dirC * (coneRadius y * (9/10 + a.biasRand * (25/100))), y,
              a.dirS * (coneRadius y * (9/10 + a.biasRand * (25/100)))⟩ : Vec3)) := by
  cases o <;> rfl

/-- Shared band computation: a placement at `coneRadius y * bias` with a
unit direction keeps distance `coneRadius y * bias` from the axis and
therefore lies between `lo * coneRadius y` and `hi * coneRadius y`
whenever `lo * coneRadius y` and `hi * coneRadius y` bound
`coneRadius y * bias`. -/
lemma band_bounds (c s bias y : ℚ) (lo hi : ℝ) (hu : c ^ 2 + s ^ 2 = 1)
    (hcr : 0 ≤ coneRadius y) (hb0 : 0 ≤ bias)
    (hlo : lo * ((coneRadius y : ℚ) : ℝ) ≤
      ((coneRadius y : ℚ) : ℝ) * ((bias : ℚ) : ℝ))
    (hhi : ((coneRadius y : ℚ) : ℝ) * ((bias : ℚ) : ℝ) ≤
      hi * ((coneRadius y : ℚ) : ℝ)) :
    lo * ((coneRadius y : ℚ) : ℝ) ≤
        distFromAxis ⟨c * (coneRadius y * bias), y, s * (coneRadius y * bias)⟩ ∧
      distFromAxis ⟨c * (coneRadius y * bias), y, s * (coneRadius y * bias)⟩ ≤
        hi * ((coneRadius y : ℚ) : ℝ) := by
  have hr : 0 ≤ coneRadius y * bias := mul_nonneg hcr hb0
  rw [distFromAxis_unit c s _ y hu hr]
  have hcast : ((coneRadius y * bias : ℚ) : ℝ) =
      ((coneRadius y : ℚ) : ℝ) * ((bias : ℚ) : ℝ) := by push_cast; ring
  rw [hcast]
  exact ⟨hlo, hhi⟩

/-- C1 counterexample: the foliage generator violates the claimed
surface band.  At height draw 0 and surface-bias draw 0 (direction
`(1, 0)`) the particle sits at distance `2.6` from the axis while
`0.9 * coneRadius = 5.85`. -/
theorem surface_hug_counterexample :
    ¬ ((9/10 : ℝ) * ((coneRadius (foliageTreePos 1 0 0 0).y : ℚ) : ℝ) ≤
          distFromAxis (foliageTreePos 1 0 0 0) ∧
        distFromAxis (foliageTreePos 1 0 0 0) ≤
          (115/100 : ℝ) * ((coneRadius (foliageTreePos 1 0 0 0).y : ℚ) : ℝ)) := by
  have hpos : foliageTreePos 1 0 0 0 = ⟨13/5, -9, 0⟩ := by
    unfold foliageTreePos
    norm_num [TREE_HEIGHT, TREE_RADIUS]
  have hd : distFromAxis (⟨13/5, -9, 0⟩ : Vec3) = ((13/5 : ℚ) : ℝ) := by
    have h := distFromAxis_unit 1 0 (13/5) (-9) (by norm_num) (by norm_num)
    simpa using h
  have hcr : coneRadius (-9 : ℚ) = 13/2 := by
    unfold coneRadius
    norm_num [TREE_HEIGHT, TREE_RADIUS]
  rintro ⟨h1, -⟩
  rw [hpos, hd] at h1
  have hy : (⟨13/5, -9, 0⟩ : Vec3).y = (-9 : ℚ) := rfl
  rw [hy, hcr] at h1
  norm_num at h1

/-- C1 amended: the `[0.9, 1.15] * coneRadius` surface band holds for
the ornament generator's tree positions; the foliage generator instead
spans `[0.4, 1.0] * coneRadius`, and the photo generator places at
exactly `1.25 * coneRadius`.  `(dirC, dirS)` is the unit azimuth
direction, the bias draws range over `[0, 1)` as `Math.random()` does,
and heights are constrained only by `0 ≤ coneRadius`, which holds for
every height the generators draw. -/
theorem surface_hug_amended :
    (∀ (id : ℕ) (o : Option ℚ) (a : AttemptRand),
      a.dirC ^ 2 + a.dirS ^ 2 = 1 → 0 ≤ a.biasRand → a.biasRand < 1 →
      0 ≤ coneRadius (ornamentCandidate id o a).treePos.y →
      (9/10 : ℝ) * ((coneRadius (ornamentCandidate id o a).treePos.y : ℚ) : ℝ) ≤
          distFromAxis (ornamentCandidate id o a).treePos ∧
        distFromAxis (ornamentCandidate id o a).treePos ≤
          (115/100 : ℝ) *
            ((coneRadius (ornamentCandidate id o a).treePos.y : ℚ) : ℝ)) ∧
    (∀ dirC dirS randY randR : ℚ,
      dirC ^ 2 + dirS ^ 2 = 1 → 0 ≤ randR → randR < 1 →
      0 ≤ coneRadius (foliageTreePos dirC dirS randY randR).y →
      (4/10 : ℝ) *
          ((coneRadius (foliageTreePos dirC dirS randY randR).y : ℚ) : ℝ) ≤
          distFromAxis (foliageTreePos dirC dirS randY randR) ∧
        distFromAxis (foliageTreePos dirC dirS randY randR) ≤
          (1 : ℝ) *
            ((coneRadius (foliageTreePos dirC dirS randY randR).y : ℚ) : ℝ)) ∧
    (∀ (index : ℕ) (dirC dirS randY : ℚ),
      dirC ^ 2 + dirS ^ 2 = 1 →
      0 ≤ coneRadius (calculateTreePos index dirC dirS randY).y →
      distFromAxis (calculateTreePos index dirC dirS randY) =
        (125/100 : ℝ) *
          ((coneRadius (calculateTreePos index dirC dirS randY).y : ℚ) : ℝ)) := by
  refine ⟨?_, ?_, ?_⟩
  · intro id o a hu hb0 hb1 hcr
    rw [ornamentCandidate_treePos] at hcr ⊢
    have hb0' : (0:ℝ) ≤ (a.biasRand : ℝ) := by exact_mod_cast hb0
    have hb1' : (a.biasRand : ℝ) < 1 := by exact_mod_cast hb1
    cases o with
    | none =>
        simp only at hcr ⊢
        have hcr' : (0:ℝ) ≤
            ((coneRadius (a.yRand * TREE_HEIGHT - TREE_HEIGHT / 2) : ℚ) : ℝ) := by
          exact_mod_cast hcr
        refine band_bounds a.dirC a.dirS (9/10 + a.biasRand * (25/100)) _
          (9/10) (115/100) hu hcr (by linarith) ?_ ?_ <;> push_cast <;> nlinarith
    | some v =>
        simp only at hcr ⊢
        have hcr' : (0:ℝ) ≤ ((coneRadius v : ℚ) : ℝ) := by exact_mod_cast hcr
        refine band_bounds a.dirC a.dirS (9/10 + a.biasRand * (25/100)) _
          (9/10) (115/100) hu hcr (by linarith) ?_ ?_ <;> push_cast <;> nlinarith
  · intro dirC dirS randY randR hu hr0 hr1 hcr
    have hshape : foliageTreePos dirC dirS randY randR =
        (⟨dirC * (coneRadius (randY * TREE_HEIGHT - TREE_HEIGHT / 2) *
            (4/10 + 6/10 * randR)),
          randY * TREE_HEIGHT - TREE_HEIGHT / 2,
          dirS * (coneRadius (randY * TREE_HEIGHT - TREE_HEIGHT / 2) *
            (4/10 + 6/10 * randR))⟩ : Vec3) := rfl
    rw [hshape] at hcr ⊢
    simp only at hcr ⊢
    have hr0' : (0:ℝ) ≤ (randR : ℝ) := by exact_mod_cast hr0
    have hr1' : (randR : ℝ) < 1 := by exact_mod_cast hr1
    have hcr' : (0:ℝ) ≤
        ((coneRadius (randY * TREE_HEIGHT - TREE_HEIGHT / 2) : ℚ) : ℝ) := by
      exact_mod_cast hcr
    refine band_bounds dirC dirS (4/10 + 6/10 * randR) _ (4/10) 1 hu hcr
      (by linarith) ?_ ?_ <;> push_cast <;> nlinarith
  · intro index dirC dirS randY hu hcr
    have hshape : calculateTreePos index dirC dirS randY =
        (⟨dirC * (coneRadius (randY * (TREE_HEIGHT - 4) - (TREE_HEIGHT / 2 - 2)) *
            (125/100)),
          randY * (TREE_HEIGHT - 4) - (TREE_HEIGHT / 2 - 2),
          dirS * (coneRadius (randY * (TREE_HEIGHT - 4) - (TREE_HEIGHT / 2 - 2)) *
            (125/100))⟩ : Vec3) := rfl
    rw [hshape] at hcr ⊢
    simp only at hcr ⊢
    have hr : 0 ≤ coneRadius (randY * (TREE_HEIGHT - 4) - (TREE_HEIGHT / 2 - 2)) *
        (125/100) := by nlinarith
    rw [distFromAxis_unit dirC dirS _ _ hu hr]
    push_cast
    ring

/-- Witness for C1 amended at concrete inputs: one ornament attempt, one
foliage particle and one photo, all with direction `(1, 0)` and draw 0. -/
theorem surface_hug_amended_witness :
    ((9/10 : ℝ) *
        ((coneRadius (ornamentCandidate 0 none
            ⟨0, 0, 0, 0, 0, 0, 1, 0, 0, 0, 0, 0, 0⟩).treePos.y : ℚ) : ℝ) ≤
        distFromAxis (ornamentCandidate 0 none
          ⟨0, 0, 0, 0, 0, 0, 1, 0, 0, 0, 0, 0, 0⟩).treePos ∧
      distFromAxis (ornamentCandidate 0 none
          ⟨0, 0, 0, 0, 0, 0, 1, 0, 0, 0, 0, 0, 0⟩).treePos ≤
        (115/100 : ℝ) *
          ((coneRadius (ornamentCandidate 0 none
              ⟨0, 0, 0, 0, 0, 0, 1, 0, 0, 0, 0, 0, 0⟩).treePos.y : ℚ) : ℝ)) ∧
    ((4/10 : ℝ) * ((coneRadius (foliageTreePos 1 0 0 0).y : ℚ) : ℝ) ≤
        distFromAxis (foliageTreePos 1 0 0 0) ∧
      distFromAxis (foliageTreePos 1 0 0 0) ≤
        (1 : ℝ) * ((coneRadius (foliageTreePos 1 0 0 0).y : ℚ) : ℝ)) ∧
    distFromAxis (calculateTreePos 0 1 0 0) =
      (125/100 : ℝ) * ((coneRadius (calculateTreePos 0 1 0 0).y : ℚ) : ℝ) := by
  refine ⟨?_, ?_, ?_⟩
  · exact surface_hug_amended.1 0 none ⟨0, 0, 0, 0, 0, 0, 1, 0, 0, 0, 0, 0, 0⟩
      (by norm_num) (by norm_num) (by norm_num)
      (by norm_num [ornamentCandidate, coneRadius, TREE_HEIGHT, TREE_RADIUS,
        SCATTER_RADIUS])
  · exact surface_hug_amended.2.1 1 0 0 0 (by norm_num) (by norm_num)
      (by norm_num)
      (by norm_num [foliageTreePos, coneRadius, TREE_HEIGHT, TREE_RADIUS])
  · exact surface_hug_amended.2.2 0 1 0 0 (by norm_num)
      (by norm_num [calculateTreePos, coneRadius, TREE_HEIGHT, TREE_RADIUS])

/-! ## C4: gesture classification drives the Mode -/

lemma scanHand_isOpenFlag (acc : GestureFlags) (hand : Hand) :
    (scanHand acc hand).isOpenFlag = true ↔
      acc.isOpenFlag = true ∨ openHand hand := by
  unfold scanHand openHand
  by_cases hf : avgFingerDist hand < 25/100
  · have hno : ¬ avgFingerDist hand > 4/10 := by linarith
    by_cases hp : pinchDist hand < 5/100 <;> simp [hp, hf, hno]
  · by_cases ho : avgFingerDist hand > 4/10 <;>
      by_cases hp : pinchDist hand < 5/100 <;> simp [hp, hf, ho]

lemma scanHand_isFist (acc : GestureFlags) (hand : Hand) :
    (scanHand acc hand).isFist = true ↔ acc.isFist = true ∨ fistHand hand := by
  unfold scanHand fistHand
  by_cases hp : pinchDist hand < 5/100 <;>
    by_cases hf : avgFingerDist hand < 25/100 <;>
      by_cases ho : avgFingerDist hand > 4/10 <;>
        simp [hp, hf, ho]

lemma foldl_scanHand_isOpenFlag (hands : List Hand) :
    ∀ acc : GestureFlags,
      (hands.foldl scanHand acc).isOpenFlag = true ↔
        acc.isOpenFlag = true ∨ ∃ h ∈ hands, openHand h := by
  induction hands with
  | nil => intro acc; simp
  | cons hd tl ih =>
    intro acc
    rw [List.foldl_cons, ih (scanHand acc hd), scanHand_isOpenFlag]
    constructor
    · rintro ((h | h) | ⟨w, hw, hwo⟩)
      · exact Or.inl h
      · exact Or.inr ⟨hd, by simp, h⟩
      · exact Or.inr ⟨w, by simp [hw], hwo⟩
    · rintro (h | ⟨w, hw, hwo⟩)
      · exact Or.inl (Or.inl h)
      · rcases List.mem_cons.mp hw with h1 | h1
        · exact Or.inl (Or.inr (h1 ▸ hwo))
        · exact Or.inr ⟨w, h1, hwo⟩

lemma foldl_scanHand_isFist (hands : List Hand) :
    ∀ acc : GestureFlags,
      (hands.foldl scanHand acc).isFist = true ↔
        acc.isFist = true ∨ ∃ h ∈ hands, fistHand h := by
  induction hands with
  | nil => intro acc; simp
  | cons hd tl ih =>
    intro acc
    rw [List.foldl_cons, ih (scanHand acc hd), scanHand_isFist]
    constructor
    · rintro ((h | h) | ⟨w, hw, hwo⟩)
      · exact Or.inl h
      · exact Or.inr ⟨hd, by simp, h⟩
      · exact Or.inr ⟨w, by simp [hw], hwo⟩
    · rintro (h | ⟨w, hw, hwo⟩)
      · exact Or.inl (Or.inl h)
      · rcases List.mem_cons.mp hw with h1 | h1
        · exact Or.inl (Or.inr (h1 ▸ hwo))
        · exact Or.inr ⟨w, h1, hwo⟩

/-- C4: on a non-empty landmark set, if some visible hand is open
(average fingertip-to-wrist distance above 0.4) the Mode becomes
SCATTERED; otherwise if some visible hand is a fist (average distance
below 0.25) the Mode becomes TREE_SHAPE; if no hand is open or fist the
Mode is left unchanged. -/
theorem gesture_mode_transitions (hands : List Hand) (g : GestureState)
    (hne : hands ≠ []) :
    ((∃ h ∈ hands, openHand h) →
        (processLandmarks hands g).mode = TreeState.SCATTERED) ∧
    ((¬ ∃ h ∈ hands, openHand h) → (∃ h ∈ hands, fistHand h) →
        (processLandmarks hands g).mode = TreeState.TREE_SHAPE) ∧
    ((¬ ∃ h ∈ hands, openHand h) → (¬ ∃ h ∈ hands, fistHand h) →
        (processLandmarks hands g).mode = g.mode) := by
  rcases hands with - | ⟨hd, tl⟩
  · exact absurd rfl hne
  set hands := hd :: tl with hhands
  have hmode : (processLandmarks hands g).mode =
      (if (hands.foldl scanHand ⟨false, false, false, 0⟩).isOpenFlag then
        TreeState.SCATTERED
      else if (hands.foldl scanHand ⟨false, false, false, 0⟩).isFist then
        TreeState.TREE_SHAPE
      else g.mode) := rfl
  have hopen := foldl_scanHand_isOpenFlag hands ⟨false, false, false, 0⟩
  have hfist := foldl_scanHand_isFist hands ⟨false, false, false, 0⟩
  simp only [Bool.false_eq_true, false_or] at hopen hfist
  refine ⟨?_, ?_, ?_⟩
  · intro hex
    rw [hmode, if_pos (hopen.mpr hex)]
  · intro hnex hex
    have h1 : (hands.foldl scanHand ⟨false, false, false, 0⟩).isOpenFlag ≠ true :=
      fun h => hnex (hopen.mp h)
    rw [hmode, if_neg (by simpa using h1), if_pos (hfist.mpr hex)]
  · intro hnex hnfist
    have h1 : (hands.foldl scanHand ⟨false, false, false, 0⟩).isOpenFlag ≠ true :=
      fun h => hnex (hopen.mp h)
    have h2 : (hands.foldl scanHand ⟨false, false, false, 0⟩).isFist ≠ true :=
      fun h => hnfist (hfist.mp h)
    rw [hmode, if_neg (by simpa using h1), if_neg (by simpa using h2)]

/-- Witness for C4 at a concrete input: one open hand (all four measured
fingertips at 2D distance 1 from the wrist) flips the Mode to
SCATTERED. -/
theorem gesture_mode_transitions_witness :
    (processLandmarks
        [fun i => if i = 0 then ⟨0, 0, 0⟩ else ⟨3/5, 4/5, 0⟩]
        ⟨TreeState.TREE_SHAPE, 1, 0⟩).mode = TreeState.SCATTERED := by
  apply (gesture_mode_transitions
    [fun i => if i = 0 then ⟨0, 0, 0⟩ else ⟨3/5, 4/5, 0⟩]
    ⟨TreeState.TREE_SHAPE, 1, 0⟩ (by simp)).1
  refine ⟨fun i => if i = 0 then ⟨0, 0, 0⟩ else ⟨3/5, 4/5, 0⟩, by simp, ?_⟩
  show avgFingerDist (fun i => if i = 0 then ⟨0, 0, 0⟩ else ⟨3/5, 4/5, 0⟩) > 4/10
  have hone : hypot2 ((3:ℝ)/5) ((4:ℝ)/5) = 1 := by
    unfold hypot2
    rw [show ((3:ℝ)/5) ^ 2 + ((4:ℝ)/5) ^ 2 = 1 by norm_num]
    exact Real.sqrt_one
  unfold avgFingerDist
  norm_num [hone]

/-! ## Scale smoother lemmas (`updateScale`) -/

lemma updateScale_true_eq (s : ℝ) :
    updateScale true s = s + (10 - s) * (1/10) := by
  unfold updateScale targetScale lerpSpeed
  simp

lemma updateScale_false_eq (s : ℝ) :
    updateScale false s =
      if |s + (1 - s) * (4/10) - 1| < 5/100 then 1
      else s + (1 - s) * (4/10) := by
  unfold updateScale targetScale lerpSpeed
  simp

/-! ## C10: the pinch smoother never leaves the interval 1 to 10 -/

lemma updateScale_mem (p : Bool) (s : ℝ) (h1 : 1 ≤ s) (h2 : s ≤ 10) :
    1 ≤ updateScale p s ∧ updateScale p s ≤ 10 := by
  cases p
  · rw [updateScale_false_eq]
    split
    · norm_num
    · constructor <;> linarith
  · rw [updateScale_true_eq]
    constructor <;> linarith

lemma foldl_updateScale_mem (l : List Bool) :
    ∀ s : ℝ, 1 ≤ s → s ≤ 10 →
      1 ≤ l.foldl (fun acc p => updateScale p acc) s ∧
        l.foldl (fun acc p => updateScale p acc) s ≤ 10 := by
  induction l with
  | nil => intro s h1 h2; exact ⟨h1, h2⟩
  | cons p t ih =>
    intro s h1 h2
    rw [List.foldl_cons]
    obtain ⟨a, b⟩ := updateScale_mem p s h1 h2
    exact ih _ a b

/-- C10: starting from the initial `pinchSmoother` value 1.0, every
finite sequence of scale updates — pinching or not, the snap branch
included — keeps the published scale inside the closed interval
`[1, 10]`. -/
theorem pinch_scale_bounded (l : List Bool) :
    1 ≤ l.foldl (fun acc p => updateScale p acc) 1 ∧
      l.foldl (fun acc p => updateScale p acc) 1 ≤ 10 :=
  foldl_updateScale_mem l 1 le_rfl (by norm_num)

/-! ## C6: thirty hand-free frames reset scale and rotation bias -/

lemma updateScale_false_ge (s : ℝ) (h : 1 ≤ s) : 1 ≤ updateScale false s := by
  rw [updateScale_false_eq]
  split
  · norm_num
  · linarith

lemma updateScale_false_contract (s : ℝ) (h : 1 ≤ s) :
    updateScale false s - 1 ≤ (3/5) * (s - 1) := by
  rw [updateScale_false_eq]
  split
  · linarith
  · linarith

lemma updateScale_false_snap (s : ℝ) (h1 : 1 ≤ s) (h2 : s - 1 < 1/12) :
    updateScale false s = 1 := by
  have heq : s + (1 - s) * (4/10) - 1 = (3/5) * (s - 1) := by ring
  have hcond : |s + (1 - s) * (4/10) - 1| < 5/100 := by
    rw [heq, abs_of_nonneg (by linarith)]
    linarith
  rw [updateScale_false_eq, if_pos hcond]

lemma updateScale_false_one : updateScale false 1 = 1 := by
  rw [updateScale_false_eq]
  norm_num

lemma updateScale_false_iterate (n : ℕ) (s : ℝ) (h1 : 1 ≤ s) :
    1 ≤ (updateScale false)^[n] s ∧
      (updateScale false)^[n] s - 1 ≤ (3/5) ^ n * (s - 1) := by
  induction n with
  | zero => simpa using h1
  | succ n ih =>
    obtain ⟨ha, hb⟩ := ih
    rw [Function.iterate_succ_apply']
    refine ⟨updateScale_false_ge _ ha, ?_⟩
    have hpow : (0:ℝ) ≤ (3/5) ^ n := by positivity
    calc updateScale false ((updateScale false)^[n] s) - 1
        ≤ (3/5) * ((updateScale false)^[n] s - 1) :=
          updateScale_false_contract _ ha
      _ ≤ (3/5) * ((3/5) ^ n * (s - 1)) := by linarith
      _ = (3/5) ^ (n + 1) * (s - 1) := by ring

lemma updateScale_false_iterate_eleven (s : ℝ) (h1 : 1 ≤ s) (h2 : s ≤ 10) :
    (updateScale false)^[11] s = 1 := by
  obtain ⟨ha, hb⟩ := updateScale_false_iterate 10 s h1
  have hnine : (3/5 : ℝ) ^ 10 * (s - 1) ≤ (3/5) ^ 10 * 9 := by
    have : (0:ℝ) ≤ (3/5) ^ 10 := by positivity
    nlinarith
  have hnum : (3/5 : ℝ) ^ 10 * 9 < 1/12 := by norm_num
  have hsmall : (updateScale false)^[10] s - 1 < 1/12 := by linarith
  rw [show (11 : ℕ) = 10 + 1 from rfl, Function.iterate_succ_apply']
  exact updateScale_false_snap _ ha hsmall

lemma updateScale_false_iterate_thirty (s : ℝ) (h1 : 1 ≤ s) (h2 : s ≤ 10) :
    (updateScale false)^[30] s = 1 := by
  rw [show (30 : ℕ) = 19 + 11 from rfl, Function.iterate_add_apply,
    updateScale_false_iterate_eleven s h1 h2]
  exact Function.iterate_fixed updateScale_false_one 19

lemma noHandsStep_iterate_scale (n : ℕ) (g : GestureState) :
    (noHandsStep^[n] g).scale = (updateScale false)^[n] g.scale := by
  induction n generalizing g with
  | zero => rfl
  | succ n ih =>
    rw [Function.iterate_succ_apply, Function.iterate_succ_apply]
    exact ih (noHandsStep g)

lemma noHandsStep_iterate_rotationMod (n : ℕ) (g : GestureState) (hn : n ≠ 0) :
    (noHandsStep^[n] g).rotationMod = 0 := by
  cases n with
  | zero => exact absurd rfl hn
  | succ n =>
    rw [Function.iterate_succ_apply']
    rfl

/-- C6: after 30 consecutive frames with zero hands detected, starting
from any scale in `[1, 10]`, the scale signal has been snapped to exactly
1.0 — in particular it is within epsilon 0.05 of 1.0 — and the rotation
bias is 0. -/
theorem no_hands_thirty_frames (g : GestureState) (h1 : 1 ≤ g.scale)
    (h2 : g.scale ≤ 10) :
    (noHandsStep^[30] g).scale = 1 ∧
      |(noHandsStep^[30] g).scale - 1| < 5/100 ∧
      (noHandsStep^[30] g).rotationMod = 0 := by
  have hs : (noHandsStep^[30] g).scale = 1 := by
    rw [noHandsStep_iterate_scale]
    exact updateScale_false_iterate_thirty g.scale h1 h2
  refine ⟨hs, ?_, noHandsStep_iterate_rotationMod 30 g (by norm_num)⟩
  rw [hs]
  norm_num

/-- Witness for C6 at the concrete start state with scale 5 and rotation
bias 3. -/
theorem no_hands_thirty_frames_witness :
    (noHandsStep^[30] ⟨TreeState.TREE_SHAPE, 5, 3⟩).scale = 1 ∧
      |(noHandsStep^[30] ⟨TreeState.TREE_SHAPE, 5, 3⟩).scale - 1| < 5/100 ∧
      (noHandsStep^[30] ⟨TreeState.TREE_SHAPE, 5, 3⟩).rotationMod = 0 :=
  no_hands_thirty_frames ⟨TreeState.TREE_SHAPE, 5, 3⟩ (by norm_num) (by norm_num)

/-! ## C5: sustained pinch approaches 10 asymptotically -/

lemma pinch_iterate_formula (s0 : ℝ) (n : ℕ) :
    10 - (updateScale true)^[n] s0 = (9/10) ^ n * (10 - s0) := by
  induction n with
  | zero => simp
  | succ n ih =>
    rw [Function.iterate_succ_apply', updateScale_true_eq]
    calc 10 - ((updateScale true)^[n] s0 +
          (10 - (updateScale true)^[n] s0) * (1/10))
        = (9/10) * (10 - (updateScale true)^[n] s0) := by ring
      _ = (9/10) * ((9/10) ^ n * (10 - s0)) := by rw [ih]
      _ = (9/10) ^ (n + 1) * (10 - s0) := by ring

/-- C5: under a sustained pinch, from any start in `[1, 10)`, the scale
signal is strictly increasing, always below 10.0, and comes within every
positive epsilon of 10.0; and the engage rate 0.1 is strictly smaller
than the release rate 0.4. -/
theorem sustained_pinch_asymptotic (s0 : ℝ) (h1 : 1 ≤ s0) (h2 : s0 < 10) :
    StrictMono (fun n => (updateScale true)^[n] s0) ∧
    (∀ n, (updateScale true)^[n] s0 < 10) ∧
    (∀ ε : ℝ, 0 < ε → ∃ N, ∀ n ≥ N, 10 - (updateScale true)^[n] s0 < ε) ∧
    lerpSpeed true < lerpSpeed false := by
  have hlt : ∀ n, (updateScale true)^[n] s0 < 10 := by
    intro n
    have h := pinch_iterate_formula s0 n
    have hp : (0:ℝ) < (9/10) ^ n := by positivity
    nlinarith
  refine ⟨?_, hlt, ?_, ?_⟩
  · apply strictMono_nat_of_lt_succ
    intro n
    rw [Function.iterate_succ_apply', updateScale_true_eq]
    have := hlt n
    linarith
  · intro ε hε
    obtain ⟨N, hN⟩ := exists_pow_lt_of_lt_one
      (show (0:ℝ) < ε / 9 by positivity) (show (9/10 : ℝ) < 1 by norm_num)
    refine ⟨N, fun n hn => ?_⟩
    have hf := pinch_iterate_formula s0 n
    have hmono : ((9:ℝ)/10) ^ n ≤ (9/10) ^ N :=
      pow_le_pow_of_le_one (by norm_num) (by norm_num) hn
    have hp : (0:ℝ) ≤ (9/10) ^ n := by positivity
    have h9 : 10 - s0 ≤ 9 := by linarith
    calc 10 - (updateScale true)^[n] s0 = (9/10) ^ n * (10 - s0) := hf
      _ ≤ (9/10) ^ N * 9 := by nlinarith
      _ < ε := by nlinarith [hN]
  · unfold lerpSpeed
    norm_num

/-- Witness for C5 at the concrete start value 1.0. -/
theorem sustained_pinch_asymptotic_witness :
    StrictMono (fun n => (updateScale true)^[n] (1 : ℝ)) ∧
    (∀ n, (updateScale true)^[n] (1 : ℝ) < 10) ∧
    (∀ ε : ℝ, 0 < ε → ∃ N, ∀ n ≥ N, 10 - (updateScale true)^[n] (1 : ℝ) < ε) ∧
    lerpSpeed true < lerpSpeed false :=
  sustained_pinch_asymptotic 1 le_rfl (by norm_num)

/-! ## C7: mode toggling always settles at the tree position -/

lemma geom_vanish (q C : ℚ) (h0 : 0 ≤ q) (h1 : q < 1) (hC : 0 ≤ C)
    {ε : ℚ} (hε : 0 < ε) : ∃ N : ℕ, ∀ n ≥ N, q ^ n * C < ε := by
  obtain ⟨N, hN⟩ := exists_pow_lt_of_lt_one
    (show 0 < ε / (C + 1) by positivity) h1
  refine ⟨N, fun n hn => ?_⟩
  have hmono : q ^ n ≤ q ^ N := pow_le_pow_of_le_one h0 h1.le hn
  have hp : (0:ℚ) ≤ q ^ n := by positivity
  have hC1 : (0:ℚ) < C + 1 := by linarith
  calc q ^ n * C ≤ q ^ N * C := by nlinarith
    _ ≤ (ε / (C + 1)) * C := by nlinarith
    _ < ε := by
        rw [div_mul_eq_mul_div, div_lt_iff₀ hC1]
        nlinarith

lemma lerp_iterate_formula (t r x : ℚ) (n : ℕ) :
    (fun u => lerp u t r)^[n] x = t + (1 - r) ^ n * (x - t) := by
  induction n with
  | zero => simp
  | succ n ih =>
    rw [Function.iterate_succ_apply', ih]
    simp only [lerp]
    ring

lemma vlerp_iterate (target : Vec3) (r : ℚ) (v : Vec3) (n : ℕ) :
    (fun p => vlerp p target r)^[n] v =
      ⟨(fun u => lerp u target.x r)^[n] v.x,
       (fun u => lerp u target.y r)^[n] v.y,
       (fun u => lerp u target.z r)^[n] v.z⟩ := by
  induction n generalizing v with
  | zero => rfl
  | succ n ih =>
    rw [Function.iterate_succ_apply, Function.iterate_succ_apply,
      Function.iterate_succ_apply, Function.iterate_succ_apply]
    exact ih (vlerp v target r)

/-- The tree-mode update of an ornament is the lerp toward its fixed
`treePos` with rate `weight`. -/
lemma ornamentFrameStep_true (item : OrnamentData) :
    ornamentFrameStep true item =
      fun cur => vlerp cur item.treePos item.weight := rfl

lemma lerp_iterate_abs_bound (t r x : ℚ) (n : ℕ) :
    |(fun u => lerp u t r)^[n] x - t| = |1 - r| ^ n * |x - t| := by
  rw [lerp_iterate_formula]
  rw [show t + (1 - r) ^ n * (x - t) - t = (1 - r) ^ n * (x - t) by ring]
  rw [abs_mul, abs_pow]

/-- C7: for every ornament entity, from any starting position, smoothing
while the Mode is TREE_SHAPE for `m` frames, then while SCATTERED for `k`
frames, then while TREE_SHAPE again, the position converges to the
entity's fixed `treePos` — independently of the starting position and of
the toggle history `m`, `k`. -/
theorem mode_toggle_terminal_state (item : OrnamentData)
    (hw1 : 0 < item.weight) (hw2 : item.weight < 2) (x0 : Vec3) (m k : ℕ) :
    ∀ ε : ℚ, 0 < ε → ∃ N, ∀ n ≥ N,
      |((ornamentFrameStep true item)^[n]
          ((ornamentFrameStep false item)^[k]
            ((ornamentFrameStep true item)^[m] x0))).x - item.treePos.x| < ε ∧
      |((ornamentFrameStep true item)^[n]
          ((ornamentFrameStep false item)^[k]
            ((ornamentFrameStep true item)^[m] x0))).y - item.treePos.y| < ε ∧
      |((ornamentFrameStep true item)^[n]
          ((ornamentFrameStep false item)^[k]
            ((ornamentFrameStep true item)^[m] x0))).z - item.treePos.z| < ε := by
  intro ε hε
  set y0 : Vec3 :=
    (ornamentFrameStep false item)^[k] ((ornamentFrameStep true item)^[m] x0)
    with hy0
  have hq0 : 0 ≤ |1 - item.weight| := abs_nonneg _
  have hq1 : |1 - item.weight| < 1 := by
    rw [abs_lt]
    constructor <;> linarith
  obtain ⟨Nx, hNx⟩ := geom_vanish |1 - item.weight| |y0.x - item.treePos.x|
    hq0 hq1 (abs_nonneg _) hε
  obtain ⟨Ny, hNy⟩ := geom_vanish |1 - item.weight| |y0.y - item.treePos.y|
    hq0 hq1 (abs_nonneg _) hε
  obtain ⟨Nz, hNz⟩ := geom_vanish |1 - item.weight| |y0.z - item.treePos.z|
    hq0 hq1 (abs_nonneg _) hε
  refine ⟨max (max Nx Ny) Nz, fun n hn => ?_⟩
  have hnx : n ≥ Nx := le_trans (le_max_left _ _) (le_trans (le_max_left _ _) hn)
  have hny : n ≥ Ny := le_trans (le_max_right _ _) (le_trans (le_max_left _ _) hn)
  have hnz : n ≥ Nz := le_trans (le_max_right _ _) hn
  rw [ornamentFrameStep_true, vlerp_iterate]
  refine ⟨?_, ?_, ?_⟩
  · rw [show (⟨(fun u => lerp u item.treePos.x item.weight)^[n] y0.x,
        (fun u => lerp u item.treePos.y item.weight)^[n] y0.y,
        (fun u => lerp u item.treePos.z item.weight)^[n] y0.z⟩ : Vec3).x =
        (fun u => lerp u item.treePos.x item.weight)^[n] y0.x from rfl,
      lerp_iterate_abs_bound]
    exact hNx n hnx
  · rw [show (⟨(fun u => lerp u item.treePos.x item.weight)^[n] y0.x,
        (fun u => lerp u item.treePos.y item.weight)^[n] y0.y,
        (fun u => lerp u item.treePos.z item.weight)^[n] y0.z⟩ : Vec3).y =
        (fun u => lerp u item.treePos.y item.weight)^[n] y0.y from rfl,
      lerp_iterate_abs_bound]
    exact hNy n hny
  · rw [show (⟨(fun u => lerp u item.treePos.x item.weight)^[n] y0.x,
        (fun u => lerp u item.treePos.y item.weight)^[n] y0.y,
        (fun u => lerp u item.treePos.z item.weight)^[n] y0.z⟩ : Vec3).z =
        (fun u => lerp u item.treePos.z item.weight)^[n] y0.z from rfl,
      lerp_iterate_abs_bound]
    exact hNz n hnz

/-- Witness for C7: a concrete sphere ornament of weight 0.05, a concrete
start position, phases of lengths 3 and 7, and epsilon 1. -/
theorem mode_toggle_terminal_state_witness :
    ∃ N, ∀ n ≥ N,
      |((ornamentFrameStep true
            ⟨0, .sphere, ⟨9, 9, 9⟩, ⟨1, 2, 3⟩, .GOLD_METALLIC, none, 5/100,
              1, 0, 1⟩)^[n]
          ((ornamentFrameStep false
              ⟨0, .sphere, ⟨9, 9, 9⟩, ⟨1, 2, 3⟩, .GOLD_METALLIC, none, 5/100,
                1, 0, 1⟩)^[7]
            ((ornamentFrameStep true
                ⟨0, .sphere, ⟨9, 9, 9⟩, ⟨1, 2, 3⟩, .GOLD_METALLIC, none, 5/100,
                  1, 0, 1⟩)^[3] ⟨5, 5, 5⟩))).x -
        (⟨0, .sphere, ⟨9, 9, 9⟩, ⟨1, 2, 3⟩, .GOLD_METALLIC, none, 5/100, 1, 0,
          1⟩ : OrnamentData).treePos.x| < 1 ∧
      |((ornamentFrameStep true
            ⟨0, .sphere, ⟨9, 9, 9⟩, ⟨1, 2, 3⟩, .GOLD_METALLIC, none, 5/100,
              1, 0, 1⟩)^[n]
          ((ornamentFrameStep false
              ⟨0, .sphere, ⟨9, 9, 9⟩, ⟨1, 2, 3⟩, .GOLD_METALLIC, none, 5/100,
                1, 0, 1⟩)^[7]
            ((ornamentFrameStep true
                ⟨0, .sphere, ⟨9, 9, 9⟩, ⟨1, 2, 3⟩, .GOLD_METALLIC, none, 5/100,
                  1, 0, 1⟩)^[3] ⟨5, 5, 5⟩))).y -
        (⟨0, .sphere, ⟨9, 9, 9⟩, ⟨1, 2, 3⟩, .GOLD_METALLIC, none, 5/100, 1, 0,
          1⟩ : OrnamentData).treePos.y| < 1 ∧
      |((ornamentFrameStep true
            ⟨0, .sphere, ⟨9, 9, 9⟩, ⟨1, 2, 3⟩, .GOLD_METALLIC, none, 5/100,
              1, 0, 1⟩)^[n]
          ((ornamentFrameStep false
              ⟨0, .sphere, ⟨9, 9, 9⟩, ⟨1, 2, 3⟩, .GOLD_METALLIC, none, 5/100,
                1, 0, 1⟩)^[7]
            ((ornamentFrameStep true
                ⟨0, .sphere, ⟨9, 9, 9⟩, ⟨1, 2, 3⟩, .GOLD_METALLIC, none, 5/100,
                  1, 0, 1⟩)^[3] ⟨5, 5, 5⟩))).z -
        (⟨0, .sphere, ⟨9, 9, 9⟩, ⟨1, 2, 3⟩, .GOLD_METALLIC, none, 5/100, 1, 0,
          1⟩ : OrnamentData).treePos.z| < 1 :=
  mode_toggle_terminal_state
    ⟨0, .sphere, ⟨9, 9, 9⟩, ⟨1, 2, 3⟩, .GOLD_METALLIC, none, 5/100, 1, 0, 1⟩
    (by norm_num) (by norm_num) ⟨5, 5, 5⟩ 3 7 1 (by norm_num)

end Treee
